import Mathlib

/-!
Verification of the SSH tunnel engine (SSHTunnel-WebProxy).

Shallow embedding of the engine code in `tunnel.go`, `connection.go` and
`types.go`: the connection pool with reference counting, the tunnel
lifecycle (`start` / `stop`), the per-connection forward handlers, the
embedded SOCKS5 parser, the HTTP CONNECT proxy dialer, the
keyboard-interactive 2FA challenge and the health check.  Network effects
(listens, dials, writes, closes) are recorded as explicit event traces or
passed in as boolean outcomes; machine state that the Go code mutates in
place is threaded explicitly.
-/

/-- Status enumeration from `types.go` (`TunnelStatus`). -/
inductive TunnelStatus where
  | statusStopped
  | statusConnecting
  | statusConnected
  | statusError
  | statusDisconnected
deriving DecidableEq, Repr

/-- Forward kinds from `types.go` (`ForwardType`). -/
inductive ForwardType where
  | forwardLocal
  | forwardRemote
  | forwardDynamic
deriving DecidableEq, Repr

/-- Read a byte of the request buffer; the Go code only indexes inside the
    number of bytes read, after explicit length guards, so the default 0 is
    never observable on the guarded paths. -/
def byte (buf : List Nat) (i : Nat) : Nat := buf.getD i 0

/-- Model of Go `strings.Contains s sub`: `sub` occurs as a contiguous
    substring of `s`. -/
def strContains (s sub : String) : Bool :=
  let l := s.toList
  let p := sub.toList
  (List.range (l.length + 1)).any (fun i => p.isPrefixOf (l.drop i))

/-- Model of Go `strings.ToLower` restricted to the ASCII range (the only
    range the engine's prompt keywords exercise). -/
def strToLower (s : String) : String := String.mk (s.toList.map Char.toLower)

/-- Model of Go `strings.TrimSpace`: drop leading and trailing whitespace
    (over the whitespace class of `Char.isWhitespace`). -/
def strTrim (s : String) : String :=
  String.mk (((s.toList.dropWhile Char.isWhitespace).reverse.dropWhile
    Char.isWhitespace).reverse)

/-- Model of Go `net.JoinHostPort` for the engine's targets: bracket the
    host when it contains a colon. -/
def joinHostPort (host : String) (port : Nat) : String :=
  if strContains host ":" then "[" ++ host ++ "]:" ++ toString port
  else host ++ ":" ++ toString port

/-- Network-visible events of a per-connection handler: bytes written back
    to the accepted client connection, dial attempts through the SSH
    transport, and the final close of the accepted connection (the Go
    handlers close it with defer on every path). -/
inductive SocksEvent where
  | write (bs : List Nat)
  | dial (target : String)
  | close
deriving DecidableEq, Repr

/-- Outcome of parsing the SOCKS5 request buffer, `tunnel.go` lines
    222-261: abandon with no reply, reply "address type not supported"
    (atyp 4 and the default switch arm), or a decoded dial target. -/
inductive SocksReq where
  | abort
  | unsupported
  | target (t : String)
deriving DecidableEq, Repr

/-- SOCKS5 request parsing from `handleSOCKS` (`tunnel.go` 222-261): the
    read must deliver at least 10 bytes, byte 0 must be 5 and byte 1 must
    be 1 (CONNECT); atyp 1 decodes a dotted quad and big-endian port,
    atyp 3 decodes a length byte, that many hostname bytes and a 2-byte
    port, rejecting truncated input before any slice is taken; atyp 4 and
    anything else are unsupported. -/
def parseSocksRequest (buf : List Nat) : SocksReq :=
  let n := buf.length
  if n < 10 then .abort
  else if byte buf 0 ≠ 5 ∨ byte buf 1 ≠ 1 then .abort
  else
    let atyp := byte buf 3
    if atyp = 1 then
      if n < 10 then .abort
      else
        let host := toString (byte buf 4) ++ "." ++ toString (byte buf 5) ++ "." ++
          toString (byte buf 6) ++ "." ++ toString (byte buf 7)
        .target (joinHostPort host (byte buf 8 * 256 + byte buf 9))
    else if atyp = 3 then
      if n < 7 then .abort
      else
        let hostLen := byte buf 4
        if n < 5 + hostLen + 2 then .abort
        else
          let host := String.mk (((buf.drop 5).take hostLen).map Char.ofNat)
          .target (joinHostPort host (byte buf (5 + hostLen) * 256 + byte buf (5 + hostLen + 1)))
    else .unsupported

/-- Greeting acceptance from `handleSOCKS` (`tunnel.go` 212-220): the first
    read must deliver at least 3 bytes and byte 0 must be version 5; the
    offered methods are never examined. -/
def socksGreetingOK (greeting : List Nat) : Bool :=
  decide (3 ≤ greeting.length) && decide (byte greeting 0 = 5)

/-- Result of a per-connection handler: its event trace plus the tunnel
    status and error message after it ran (`rt.Status` / `rt.ErrorMsg`). -/
structure HandlerOut where
  events : List SocksEvent
  status : TunnelStatus
  errorMsg : String
deriving DecidableEq, Repr

/-- Model of `handleSOCKS` (`tunnel.go` 209-292).  The two `conn.Read`
    results are the byte lists `greeting` and `request` (a read error is a
    short list); `clientPresent` is whether `rt.Client` is non-nil,
    `dialOk` whether `rt.Client.Dial` on the decoded target succeeds, and
    `dialErr` the error text when it fails.  On a failed dial while the
    tunnel is Connected the Go code flips the status to Error. -/
def handleSOCKS (status : TunnelStatus) (errorMsg : String)
    (clientPresent dialOk : Bool) (dialErr : String)
    (greeting request : List Nat) : HandlerOut :=
  if socksGreetingOK greeting then
    let ev0 := [SocksEvent.write [5, 0]]
    match parseSocksRequest request with
    | .abort => ⟨ev0 ++ [.close], status, errorMsg⟩
    | .unsupported => ⟨ev0 ++ [.write [5, 8, 0, 1, 0, 0, 0, 0, 0, 0], .close], status, errorMsg⟩
    | .target t =>
      if clientPresent then
        if dialOk then
          ⟨ev0 ++ [.dial t, .write [5, 0, 0, 1, 0, 0, 0, 0, 0, 0], .close], status, errorMsg⟩
        else if status = .statusConnected then
          ⟨ev0 ++ [.dial t, .write [5, 1, 0, 1, 0, 0, 0, 0, 0, 0], .close],
            .statusError, "SOCKS dial failed: " ++ dialErr⟩
        else
          ⟨ev0 ++ [.dial t, .write [5, 1, 0, 1, 0, 0, 0, 0, 0, 0], .close], status, errorMsg⟩
      else
        ⟨ev0 ++ [.write [5, 1, 0, 1, 0, 0, 0, 0, 0, 0], .close], status, errorMsg⟩
  else ⟨[.close], status, errorMsg⟩

/-- Model of `handleDirectForward` (`tunnel.go` 178-207): with a nil client
    the connection is just closed; otherwise the fixed counterpart address
    is dialed through the transport, and a failed dial while the tunnel is
    Connected flips the status to Error with a dial-failure message. -/
def handleDirectForward (status : TunnelStatus) (errorMsg : String)
    (clientPresent dialOk : Bool) (dialErr remoteAddr : String) : HandlerOut :=
  if clientPresent then
    if dialOk then ⟨[.dial remoteAddr, .close], status, errorMsg⟩
    else if status = .statusConnected then
      ⟨[.dial remoteAddr, .close], .statusError,
        "Failed to dial " ++ remoteAddr ++ ": " ++ dialErr⟩
    else ⟨[.dial remoteAddr, .close], status, errorMsg⟩
  else ⟨[.close], status, errorMsg⟩

/-! ### Connection pool (`connection.go` / `types.go`)

The pool is `AppState.connections : map[string]*sshConnection` keyed by
the identity string `user@host:port`; each entry carries a `refCount`.
We model the map as an association list and record, as multisets of keys,
which identities had a fresh client created and inserted
(`getSSHConnection`, `connection.go` 36-43) and which had their client
closed by the pool-release section of `stop` (`tunnel.go` 110-128). -/

/-- Association-list model of the Go map `AppState.connections`, holding
    each identity's reference count. -/
abbrev Pool := List (String × Nat)

/-- Map lookup. -/
def lookupPool : Pool → String → Option Nat
  | [], _ => none
  | (k1, v) :: rest, k => if k1 = k then some v else lookupPool rest k

/-- Map update of an existing key (Go `conn.refCount = ...` through the
    shared pointer). -/
def updatePool : Pool → String → Nat → Pool
  | [], _, _ => []
  | (k1, v1) :: rest, k, v => if k1 = k then (k, v) :: rest else (k1, v1) :: updatePool rest k v

/-- Map deletion (Go `delete(state.connections, key)`). -/
def removePool : Pool → String → Pool
  | [], _ => []
  | (k1, v1) :: rest, k => if k1 = k then removePool rest k else (k1, v1) :: removePool rest k

/-- Pool state together with the history of client creations and client
    closes, per identity key. -/
structure PoolTrace where
  pool : Pool
  openedFor : List String
  closedFor : List String
deriving DecidableEq, Repr

/-- `getSSHConnection` (`connection.go` 20-45): an existing entry gets its
    refcount incremented and its client reused; otherwise `dialSSH` runs —
    on success a fresh entry with refcount 1 is inserted, on failure the
    pool is untouched. -/
def acquireStep (t : PoolTrace) (key : String) (dialOk : Bool) : PoolTrace :=
  match lookupPool t.pool key with
  | some n => { t with pool := updatePool t.pool key (n + 1) }
  | none =>
    if dialOk then
      { t with pool := (key, 1) :: t.pool, openedFor := key :: t.openedFor }
    else t

/-- Pool-release section of `stop` (`tunnel.go` 112-127): if the key is
    present, decrement the refcount; when the decrement reaches 0, close
    the client and delete the entry in the same critical section;
    otherwise keep the entry with the decremented count.  An absent key is
    a no-op. -/
def releaseStep (t : PoolTrace) (key : String) : PoolTrace :=
  match lookupPool t.pool key with
  | some n =>
    if n - 1 = 0 then
      { t with pool := removePool t.pool key, closedFor := key :: t.closedFor }
    else { t with pool := updatePool t.pool key (n - 1) }
  | none => t

/-- The two pool operations as events. -/
inductive PoolEvent where
  | acquire (key : String) (dialOk : Bool)
  | release (key : String)
deriving DecidableEq, Repr

/-- One pool step. -/
def poolStep (t : PoolTrace) : PoolEvent → PoolTrace
  | .acquire k d => acquireStep t k d
  | .release k => releaseStep t k

/-- Run a sequence of acquire/release events from the empty pool. -/
def runPool (evs : List PoolEvent) : PoolTrace :=
  evs.foldl poolStep ⟨[], [], []⟩

/-- Pool invariant: the map has at most one entry per identity key, no
    entry has refcount 0, and for every key the number of closes plus the
    one live session (if any) equals the number of clients created — each
    created client is closed exactly once, and only once its session has
    been fully released. -/
def PoolInv (t : PoolTrace) : Prop :=
  (t.pool.map Prod.fst).Nodup ∧
  (∀ p ∈ t.pool, 1 ≤ p.2) ∧
  (∀ k, t.closedFor.count k +
      (if (lookupPool t.pool k).isSome then 1 else 0) = t.openedFor.count k)

theorem lookupPool_updatePool_self (p : Pool) (k : String) (v : Nat) :
    lookupPool (updatePool p k v) k =
      if (lookupPool p k).isSome then some v else none := by
  induction p with
  | nil => simp [lookupPool, updatePool]
  | cons hd tl ih =>
    obtain ⟨k1, v1⟩ := hd
    by_cases h : k1 = k
    · simp [lookupPool, updatePool, h]
    · simp [lookupPool, updatePool, h, ih]

theorem lookupPool_updatePool_ne (p : Pool) (k k2 : String) (v : Nat) (h : k2 ≠ k) :
    lookupPool (updatePool p k v) k2 = lookupPool p k2 := by
  induction p with
  | nil => simp [lookupPool, updatePool]
  | cons hd tl ih =>
    obtain ⟨k1, v1⟩ := hd
    by_cases h1 : k1 = k
    · subst h1
      simp [lookupPool, updatePool, Ne.symm h]
    · by_cases h2 : k1 = k2 <;> simp [lookupPool, updatePool, h, h1, h2, ih]

theorem map_fst_updatePool (p : Pool) (k : String) (v : Nat) :
    (updatePool p k v).map Prod.fst = p.map Prod.fst := by
  induction p with
  | nil => simp [updatePool]
  | cons hd tl ih =>
    obtain ⟨k1, v1⟩ := hd
    by_cases h : k1 = k
    · subst h; simp [updatePool]
    · simp [updatePool, h, ih]

theorem mem_updatePool (p : Pool) (k : String) (v : Nat) (q : String × Nat)
    (h : q ∈ updatePool p k v) : q ∈ p ∨ q = (k, v) := by
  induction p with
  | nil => simp [updatePool] at h
  | cons hd tl ih =>
    obtain ⟨k1, v1⟩ := hd
    by_cases h1 : k1 = k
    · subst h1
      simp [updatePool] at h
      rcases h with h | h
      · right; simp [h]
      · left; simp [h]
    · simp [updatePool, h1] at h
      rcases h with h | h
      · left; simp [h]
      · rcases ih h with h2 | h2
        · left; simp [h2]
        · right; exact h2

theorem removePool_sublist (p : Pool) (k : String) : List.Sublist (removePool p k) p := by
  induction p with
  | nil => simp [removePool]
  | cons hd tl ih =>
    obtain ⟨k1, v1⟩ := hd
    by_cases h : k1 = k
    · simp only [removePool, h, if_pos rfl]
      exact ih.cons _
    · simp only [removePool, if_neg h]
      exact ih.cons₂ _

theorem lookupPool_removePool_self (p : Pool) (k : String) :
    lookupPool (removePool p k) k = none := by
  induction p with
  | nil => simp [removePool, lookupPool]
  | cons hd tl ih =>
    obtain ⟨k1, v1⟩ := hd
    by_cases h : k1 = k
    · simp [removePool, h, ih]
    · simp [removePool, lookupPool, h, ih]

theorem lookupPool_removePool_ne (p : Pool) (k k2 : String) (h : k2 ≠ k) :
    lookupPool (removePool p k) k2 = lookupPool p k2 := by
  induction p with
  | nil => simp [removePool]
  | cons hd tl ih =>
    obtain ⟨k1, v1⟩ := hd
    by_cases h1 : k1 = k
    · subst h1
      simp [removePool, lookupPool, Ne.symm h, ih]
    · by_cases h2 : k1 = k2 <;> simp [removePool, lookupPool, h, h1, h2, ih]

theorem lookupPool_isSome_iff (p : Pool) (k : String) :
    (lookupPool p k).isSome = true ↔ k ∈ p.map Prod.fst := by
  induction p with
  | nil => simp [lookupPool]
  | cons hd tl ih =>
    obtain ⟨k1, v1⟩ := hd
    by_cases h : k1 = k
    · simp [lookupPool, h]
    · simp [lookupPool, h, ih, Ne.symm h]

theorem poolInv_acquireStep (t : PoolTrace) (k : String) (d : Bool)
    (h : PoolInv t) : PoolInv (acquireStep t k d) := by
  obtain ⟨h1, h2, h3⟩ := h
  unfold acquireStep
  cases heq : lookupPool t.pool k with
  | some n =>
    refine ⟨?_, ?_, ?_⟩
    · simpa [map_fst_updatePool] using h1
    · intro p hp
      rcases mem_updatePool _ _ _ _ hp with hp1 | hp1
      · exact h2 p hp1
      · simp [hp1]
    · intro k2
      by_cases hk : k2 = k
      · subst hk
        have := h3 k2
        simpa [lookupPool_updatePool_self, heq] using this
      · simpa [lookupPool_updatePool_ne _ _ _ _ hk] using h3 k2
  | none =>
    cases d with
    | false =>
      rw [if_neg (by simp)]
      exact ⟨h1, h2, h3⟩
    | true =>
      rw [if_pos rfl]
      refine ⟨?_, ?_, ?_⟩
      · simp only [List.map_cons, List.nodup_cons]
        refine ⟨?_, h1⟩
        intro hmem
        rw [← lookupPool_isSome_iff] at hmem
        simp [heq] at hmem
      · intro p hp
        simp only [List.mem_cons] at hp
        rcases hp with hp | hp
        · simp [hp]
        · exact h2 p hp
      · intro k2
        by_cases hk : k2 = k
        · subst hk
          have := h3 k2
          simp only [heq, Option.isSome_none, Bool.false_eq_true, if_false, Nat.add_zero] at this
          simp [lookupPool, List.count_cons_self, this]
        · have hne : ¬(k = k2) := fun hc => hk hc.symm
          have := h3 k2
          simp [lookupPool, hne, List.count_cons_of_ne (Ne.symm hne), this,
            Ne.symm hne]

theorem poolInv_releaseStep (t : PoolTrace) (k : String)
    (h : PoolInv t) : PoolInv (releaseStep t k) := by
  obtain ⟨h1, h2, h3⟩ := h
  unfold releaseStep
  cases heq : lookupPool t.pool k with
  | none => exact ⟨h1, h2, h3⟩
  | some n =>
    by_cases hz : n - 1 = 0
    · simp only [hz, if_pos rfl]
      refine ⟨?_, ?_, ?_⟩
      · exact h1.sublist ((removePool_sublist t.pool k).map Prod.fst)
      · intro p hp
        exact h2 p ((removePool_sublist t.pool k).subset hp)
      · intro k2
        by_cases hk : k2 = k
        · subst hk
          have := h3 k2
          simp only [heq, Option.isSome_some, if_true] at this
          simp [lookupPool_removePool_self, List.count_cons_self, this]
        · have := h3 k2
          simp [lookupPool_removePool_ne _ _ _ hk,
            List.count_cons_of_ne hk, this]
    · simp only [hz, if_neg (by exact hz)]
      refine ⟨?_, ?_, ?_⟩
      · simpa [map_fst_updatePool] using h1
      · intro p hp
        rcases mem_updatePool _ _ _ _ hp with hp1 | hp1
        · exact h2 p hp1
        · simp only [hp1]
          omega
      · intro k2
        by_cases hk : k2 = k
        · subst hk
          have := h3 k2
          simpa [lookupPool_updatePool_self, heq] using this
        · simpa [lookupPool_updatePool_ne _ _ _ _ hk] using h3 k2

theorem poolInv_poolStep (t : PoolTrace) (e : PoolEvent)
    (h : PoolInv t) : PoolInv (poolStep t e) := by
  cases e with
  | acquire k d => exact poolInv_acquireStep t k d h
  | release k => exact poolInv_releaseStep t k h

theorem poolInv_foldl (evs : List PoolEvent) :
    ∀ t : PoolTrace, PoolInv t → PoolInv (evs.foldl poolStep t) := by
  induction evs with
  | nil => intro t h; simpa using h
  | cons e rest ih =>
    intro t h
    exact ih (poolStep t e) (poolInv_poolStep t e h)

theorem poolInv_empty : PoolInv ⟨[], [], []⟩ := by
  refine ⟨List.nodup_nil, ?_, ?_⟩
  · intro p hp; simp at hp
  · intro k; simp [lookupPool]

/-! ### Tunnel stop (`tunnel.go` 91-136) -/

/-- The per-tunnel fields `stop` touches: the `stopping` flag, `Status`,
    whether `rt.Client` is non-nil, and the `stopped` channel (whether it
    was created, and whether it has been closed). -/
structure StopSt where
  stopping : Bool
  status : TunnelStatus
  clientPresent : Bool
  stoppedNonNil : Bool
  stoppedClosed : Bool
deriving DecidableEq, Repr

/-- Side effects of a single `stop` call: how many passes over the owned
    closers ran (the loop at `tunnel.go` 104-108), how many refcount
    decrements (`conn.refCount--`) and how many `rt.Client.Close()` calls
    were made. -/
structure StopEffects where
  closePasses : Nat
  poolDecrements : Nat
  clientCloses : Nat
deriving DecidableEq, Repr

/-- Model of `stop` (`tunnel.go` 91-136).  Under the tunnel mutex an
    already-stopping tunnel returns immediately; otherwise the tunnel is
    marked stopping with status Stopped, the owned closers are closed in
    one pass, and if `rt.Client` is non-nil the pool entry for `key` is
    released: decrement, and when the decrement reaches 0 close the shared
    client and delete the entry, otherwise detach (`rt.Client = nil`).
    Finally the `stopped` channel is closed when it exists. -/
def stopModel (key : String) (rt : StopSt) (t : PoolTrace) :
    StopSt × PoolTrace × StopEffects :=
  if rt.stopping then (rt, t, ⟨0, 0, 0⟩)
  else
    let rt1 : StopSt := { rt with stopping := true, status := .statusStopped }
    if rt1.clientPresent then
      match lookupPool t.pool key with
      | some n =>
        if n - 1 = 0 then
          ({ rt1 with stoppedClosed := rt1.stoppedClosed || rt1.stoppedNonNil },
            releaseStep t key, ⟨1, 1, 1⟩)
        else
          ({ rt1 with
              clientPresent := false,
              stoppedClosed := rt1.stoppedClosed || rt1.stoppedNonNil },
            releaseStep t key, ⟨1, 1, 0⟩)
      | none =>
        ({ rt1 with stoppedClosed := rt1.stoppedClosed || rt1.stoppedNonNil }, t, ⟨1, 0, 0⟩)
    else ({ rt1 with stoppedClosed := rt1.stoppedClosed || rt1.stoppedNonNil }, t, ⟨1, 0, 0⟩)

/-! ### Tunnel start (`tunnel.go` 24-89)

`start` acquires the transport, then walks `rt.Cfg.Forwards` in order.
A local forward binds its listener synchronously and a bind failure makes
`start` set Error and return that failure.  Remote and dynamic forwards
are set up inside spawned goroutines (`safeGo`, `tunnel.go` 56-73): their
bind failures cannot be returned by `start`; the goroutine itself sets
Error and the error message when its setup fails (`remoteForward`
`tunnel.go` 294-311, `dynamicForward` 313-327).  We model a forward by
its kind together with the outcome its bind would have. -/

/-- One configured forward together with the outcome of its (local or
    server-side) bind and the error text produced on failure. -/
structure ForwardSetup where
  ftype : ForwardType
  bindOk : Bool
  errMsg : String
deriving DecidableEq, Repr

/-- What `start` has produced by the time it returns: tunnel status and
    error message, the returned error, the number of listeners opened
    synchronously, and the spawned remote/dynamic setup tasks (bind
    outcome and error text), which run after `start` returns. -/
structure StartResult where
  status : TunnelStatus
  errorMsg : String
  retErr : Option String
  listeners : Nat
  asyncTasks : List (Bool × String)
deriving DecidableEq, Repr

/-- The forward-setup loop of `start` (`tunnel.go` 42-88): local binds are
    synchronous and abort the loop with Error on failure; remote/dynamic
    setups are deferred to spawned tasks; if the loop completes, status
    becomes Connected and nil is returned. -/
def setupForwards : Nat → List (Bool × String) → List ForwardSetup → StartResult
  | lis, tasks, [] => ⟨.statusConnected, "", none, lis, tasks⟩
  | lis, tasks, f :: rest =>
    match f.ftype with
    | .forwardLocal =>
      if f.bindOk then setupForwards (lis + 1) tasks rest
      else ⟨.statusError, f.errMsg, some f.errMsg, lis, tasks⟩
    | .forwardRemote => setupForwards lis (tasks ++ [(f.bindOk, f.errMsg)]) rest
    | .forwardDynamic => setupForwards lis (tasks ++ [(f.bindOk, f.errMsg)]) rest

/-- Model of `start` (`tunnel.go` 24-89): transport acquisition failure
    sets Error and returns the failure; otherwise the forward-setup loop
    runs. -/
def startModel (dialOk : Bool) (dialErr : String) (fwds : List ForwardSetup) : StartResult :=
  if dialOk then setupForwards 0 [] fwds
  else ⟨.statusError, dialErr, some dialErr, 0, []⟩

/-- Completion of the spawned remote/dynamic setup tasks (`tunnel.go`
    58-63 and 67-72): a failing task sets status Error with its message,
    a succeeding one changes nothing. -/
def applyAsync : TunnelStatus → String → List (Bool × String) → TunnelStatus × String
  | st, em, [] => (st, em)
  | st, em, task :: rest =>
    if task.1 then applyAsync st em rest else applyAsync .statusError task.2 rest

/-! ### Health check (`tunnel.go` 336-358) -/

/-- The fields `isHealthy` reads and writes. -/
structure HealthSt where
  status : TunnelStatus
  errorMsg : String
  clientPresent : Bool
  lastHeartbeat : Nat
deriving DecidableEq, Repr

/-- Model of `isHealthy` (`tunnel.go` 336-358); time is in seconds, so the
    staleness threshold `2*time.Minute` is 120, and `now` plays
    `time.Now()` with `now - lastHeartbeat` as `time.Since(rt.LastHeartbeat)`.
    `probeOk` is whether `rt.Client.NewSession()` succeeds (the session is
    immediately closed again). -/
def isHealthy (st : HealthSt) (now : Nat) (probeOk : Bool) : Bool × HealthSt :=
  if st.status ≠ .statusConnected ∨ st.clientPresent = false then (false, st)
  else if 120 < now - st.lastHeartbeat then
    if probeOk = false then
      (false, { st with status := .statusDisconnected, errorMsg := "Connection lost" })
    else (true, { st with lastHeartbeat := now })
  else (true, st)

/-! ### HTTP CONNECT proxy dialer (`connection.go` 47-86) -/

/-- Failure cases of `dialViaHTTPProxy` after the TCP/TLS connection to
    the proxy is up. -/
inductive ProxyErr where
  | writeFailed
  | readStatusFailed
  | connectRejected (status : String)
deriving DecidableEq, Repr

/-- Observable outcome of `dialViaHTTPProxy`: success, whether the proxy
    connection was closed, the failure case, and the lines left on the
    stream after header draining when the connection is returned. -/
structure ProxyResult where
  ok : Bool
  connClosed : Bool
  err : Option ProxyErr
  remaining : List String
deriving DecidableEq, Repr

/-- Header-drain loop of `dialViaHTTPProxy` (`connection.go` 79-84):
    consume lines until a blank line. -/
def dropHeaders : List String → List String
  | [] => []
  | l :: rest => if l = "\r\n" ∨ l = "\n" then rest else dropHeaders rest

/-- Model of `dialViaHTTPProxy` (`connection.go` 47-86) after the proxy
    connection is established: `writeOk` is whether writing the CONNECT
    request succeeded, `statusLine` the result of reading the status line
    (none = read error), `headerLines` the lines that follow on the
    stream.  The status line must contain the substring " 200 ";
    otherwise the connection is closed and an error is returned carrying
    the trimmed status line. -/
def dialViaHTTPProxyModel (writeOk : Bool) (statusLine : Option String)
    (headerLines : List String) : ProxyResult :=
  if writeOk = false then ⟨false, true, some .writeFailed, []⟩
  else
    match statusLine with
    | none => ⟨false, true, some .readStatusFailed, []⟩
    | some s =>
      if strContains s " 200 " = false then
        ⟨false, true, some (.connectRejected (strTrim s)), []⟩
      else ⟨true, false, none, dropHeaders headerLines⟩

/-! ### Keyboard-interactive 2FA challenge (`connection.go` 158-173) -/

/-- Per-prompt answer of `kbdChallenge`: lowercase the trimmed prompt; a
    prompt containing "password" gets the password, otherwise one
    mentioning "verification", "code", "token" or "authenticator" gets the
    2FA code, and anything else is an unexpected prompt (none). -/
def answerPrompt (password code q : String) : Option String :=
  let ql := strToLower (strTrim q)
  if strContains ql "password" then some password
  else if strContains ql "verification" || strContains ql "code" ||
      strContains ql "token" || strContains ql "authenticator" then some code
  else none

/-- Model of the challenge function returned by `kbdChallenge`
    (`connection.go` 159-172): answer the prompts in order and fail on the
    first unexpected one, returning no answers. -/
def kbdChallenge (password code : String) : List String → Except String (List String)
  | [] => .ok []
  | q :: qs =>
    match answerPrompt password code q with
    | none => .error ("unexpected prompt: " ++ q)
    | some a =>
      match kbdChallenge password code qs with
      | .error e => .error e
      | .ok rest => .ok (a :: rest)

/-- C1: connection pool invariant.  For every sequence of acquire
    (`getSSHConnection`) and release (the pool section of `stop`) events,
    the pool map has at most one entry per identity key, a session with
    refcount 0 never exists (part 1, via `PoolInv`: key uniqueness,
    every refcount at least 1, and per key the closes plus the live
    session account exactly for the clients created — each client is
    closed exactly once, only once its session is fully released); and a
    single release closes the client exactly when the decrement reaches
    zero, atomically with the deletion of the entry (part 2). -/
theorem c1_pool_refcount_invariant :
    (∀ evs : List PoolEvent, PoolInv (runPool evs)) ∧
    (∀ (t : PoolTrace) (k : String) (n : Nat), lookupPool t.pool k = some n →
      if n - 1 = 0 then
        (releaseStep t k).closedFor = k :: t.closedFor ∧
        lookupPool (releaseStep t k).pool k = none
      else
        (releaseStep t k).closedFor = t.closedFor ∧
        lookupPool (releaseStep t k).pool k = some (n - 1)) := by
  constructor
  · intro evs
    exact poolInv_foldl evs _ poolInv_empty
  · intro t k n hlook
    unfold releaseStep
    rw [hlook]
    by_cases hz : n - 1 = 0
    · simp [hz, lookupPool_removePool_self]
    · simp [hz, lookupPool_updatePool_self, hlook]

/-- Witness for C1 part 2: a pool holding one session for u@h:22 with
    refcount 1; release closes it and deletes the entry. -/
theorem c1_witness :
    (releaseStep ⟨[("u@h:22", 1)], ["u@h:22"], []⟩ "u@h:22").closedFor = ["u@h:22"] ∧
    lookupPool (releaseStep ⟨[("u@h:22", 1)], ["u@h:22"], []⟩ "u@h:22").pool "u@h:22" = none := by
  have h := c1_pool_refcount_invariant.2 ⟨[("u@h:22", 1)], ["u@h:22"], []⟩ "u@h:22" 1 (by decide)
  simpa using h

theorem stopModel_of_stopping (key : String) (rt : StopSt) (t : PoolTrace)
    (h : rt.stopping = true) : stopModel key rt t = (rt, t, ⟨0, 0, 0⟩) := by
  unfold stopModel
  rw [if_pos h]

/-- C4: stop is idempotent.  On a running (not yet stopping) tunnel the
    first `stopModel` marks it stopping; a second call on the result
    changes neither the tunnel nor the pool and produces no effects, the
    first call makes exactly one close pass over the owned closers, and
    when the tunnel holds a client whose identity is pooled, exactly one
    refcount decrement happens across the two calls. -/
theorem c4_stop_idempotent (key : String) (rt : StopSt) (t : PoolTrace)
    (h : rt.stopping = false) :
    (stopModel key rt t).1.stopping = true ∧
    stopModel key (stopModel key rt t).1 (stopModel key rt t).2.1 =
      ((stopModel key rt t).1, (stopModel key rt t).2.1, ⟨0, 0, 0⟩) ∧
    (stopModel key rt t).2.2.closePasses = 1 ∧
    (rt.clientPresent = true → ∀ n, lookupPool t.pool key = some n →
      (stopModel key rt t).2.2.poolDecrements = 1) := by
  have hstop : (stopModel key rt t).1.stopping = true := by
    unfold stopModel
    rw [if_neg (by simp [h])]
    by_cases hcp : rt.clientPresent = true
    · simp only [hcp, if_pos rfl]
      cases hl : lookupPool t.pool key with
      | some n => by_cases hz : n - 1 = 0 <;> simp [hz]
      | none => simp
    · simp [hcp]
  refine ⟨hstop, stopModel_of_stopping _ _ _ hstop, ?_, ?_⟩
  · unfold stopModel
    rw [if_neg (by simp [h])]
    by_cases hcp : rt.clientPresent = true
    · simp only [hcp, if_pos rfl]
      cases hl : lookupPool t.pool key with
      | some n => by_cases hz : n - 1 = 0 <;> simp [hz]
      | none => simp
    · simp [hcp]
  · intro hcp n hl
    unfold stopModel
    rw [if_neg (by simp [h])]
    simp only [hcp, if_pos rfl, hl]
    by_cases hz : n - 1 = 0 <;> simp [hz]

/-- Witness for C4: a Connected tunnel holding the pooled client for
    u@h:22 with refcount 2; stopping twice changes nothing the second
    time, with one close pass and one decrement in total. -/
theorem c4_witness :
    (stopModel "u@h:22" ⟨false, .statusConnected, true, true, false⟩
        ⟨[("u@h:22", 2)], ["u@h:22"], []⟩).1.stopping = true ∧
    stopModel "u@h:22"
        (stopModel "u@h:22" ⟨false, .statusConnected, true, true, false⟩
          ⟨[("u@h:22", 2)], ["u@h:22"], []⟩).1
        (stopModel "u@h:22" ⟨false, .statusConnected, true, true, false⟩
          ⟨[("u@h:22", 2)], ["u@h:22"], []⟩).2.1 =
      ((stopModel "u@h:22" ⟨false, .statusConnected, true, true, false⟩
          ⟨[("u@h:22", 2)], ["u@h:22"], []⟩).1,
        (stopModel "u@h:22" ⟨false, .statusConnected, true, true, false⟩
          ⟨[("u@h:22", 2)], ["u@h:22"], []⟩).2.1, ⟨0, 0, 0⟩) ∧
    (stopModel "u@h:22" ⟨false, .statusConnected, true, true, false⟩
        ⟨[("u@h:22", 2)], ["u@h:22"], []⟩).2.2.closePasses = 1 ∧
    (stopModel "u@h:22" ⟨false, .statusConnected, true, true, false⟩
        ⟨[("u@h:22", 2)], ["u@h:22"], []⟩).2.2.poolDecrements = 1 := by
  have h := c4_stop_idempotent "u@h:22" ⟨false, .statusConnected, true, true, false⟩
    ⟨[("u@h:22", 2)], ["u@h:22"], []⟩ rfl
  exact ⟨h.1, h.2.1, h.2.2.1, h.2.2.2 rfl 2 (by decide)⟩

theorem applyAsync_of_error (l : List (Bool × String)) :
    ∀ em, (applyAsync .statusError em l).1 = .statusError := by
  induction l with
  | nil => intro em; rfl
  | cons task rest ih =>
    intro em
    unfold applyAsync
    by_cases h : task.1 = true <;> simp [h, ih]

theorem applyAsync_of_anyFail (l : List (Bool × String)) :
    ∀ (st : TunnelStatus) (em : String), (∃ p ∈ l, p.1 = false) →
      (applyAsync st em l).1 = .statusError := by
  induction l with
  | nil => intro st em h; simp at h
  | cons task rest ih =>
    intro st em h
    unfold applyAsync
    by_cases ht : task.1 = true
    · rw [if_pos ht]
      rcases h with ⟨p, hp, hpf⟩
      rcases List.mem_cons.mp hp with hp1 | hp1
      · rw [hp1] at hpf; rw [hpf] at ht; simp at ht
      · exact ih st em ⟨p, hp1, hpf⟩
    · rw [if_neg ht]
      exact applyAsync_of_error rest task.2

theorem applyAsync_of_allOk (l : List (Bool × String)) :
    ∀ (st : TunnelStatus) (em : String), (∀ p ∈ l, p.1 = true) →
      applyAsync st em l = (st, em) := by
  induction l with
  | nil => intro st em _; rfl
  | cons task rest ih =>
    intro st em h
    unfold applyAsync
    rw [if_pos (h task (List.mem_cons_self _ _))]
    exact ih st em (fun p hp => h p (List.mem_cons_of_mem _ hp))

theorem setupForwards_allOk (fs : List ForwardSetup) :
    ∀ (lis : Nat) (tasks : List (Bool × String)),
      (∀ f ∈ fs, f.bindOk = true) → (∀ p ∈ tasks, p.1 = true) →
      (setupForwards lis tasks fs).status = .statusConnected ∧
      (setupForwards lis tasks fs).retErr = none ∧
      (∀ p ∈ (setupForwards lis tasks fs).asyncTasks, p.1 = true) := by
  induction fs with
  | nil =>
    intro lis tasks _ ht
    exact ⟨rfl, rfl, ht⟩
  | cons f rest ih =>
    intro lis tasks hf ht
    have hfh : f.bindOk = true := hf f (List.mem_cons_self _ _)
    have hfr : ∀ g ∈ rest, g.bindOk = true := fun g hg => hf g (List.mem_cons_of_mem _ hg)
    unfold setupForwards
    cases hty : f.ftype with
    | forwardLocal =>
      rw [if_pos hfh]
      exact ih (lis + 1) tasks hfr ht
    | forwardRemote =>
      refine ih lis (tasks ++ [(f.bindOk, f.errMsg)]) hfr ?_
      intro p hp
      rcases List.mem_append.mp hp with hp1 | hp1
      · exact ht p hp1
      · simp at hp1; rw [hp1]; exact hfh
    | forwardDynamic =>
      refine ih lis (tasks ++ [(f.bindOk, f.errMsg)]) hfr ?_
      intro p hp
      rcases List.mem_append.mp hp with hp1 | hp1
      · exact ht p hp1
      · simp at hp1; rw [hp1]; exact hfh

theorem setupForwards_anyFail (fs : List ForwardSetup) :
    ∀ (lis : Nat) (tasks : List (Bool × String)),
      ((∃ f ∈ fs, f.bindOk = false) ∨ (∃ p ∈ tasks, p.1 = false)) →
      (applyAsync (setupForwards lis tasks fs).status (setupForwards lis tasks fs).errorMsg
        (setupForwards lis tasks fs).asyncTasks).1 = .statusError := by
  induction fs with
  | nil =>
    intro lis tasks h
    rcases h with h | h
    · simp at h
    · exact applyAsync_of_anyFail tasks _ _ h
  | cons f rest ih =>
    intro lis tasks h
    unfold setupForwards
    cases hty : f.ftype with
    | forwardLocal =>
      by_cases hfb : f.bindOk = true
      · rw [if_pos hfb]
        refine ih (lis + 1) tasks ?_
        rcases h with ⟨g, hg, hgf⟩ | h
        · rcases List.mem_cons.mp hg with hg1 | hg1
          · rw [hg1] at hgf; rw [hgf] at hfb; simp at hfb
          · exact Or.inl ⟨g, hg1, hgf⟩
        · exact Or.inr h
      · rw [if_neg hfb]
        exact applyAsync_of_error tasks f.errMsg
    | forwardRemote =>
      refine ih lis (tasks ++ [(f.bindOk, f.errMsg)]) ?_
      rcases h with ⟨g, hg, hgf⟩ | h
      · rcases List.mem_cons.mp hg with hg1 | hg1
        · refine Or.inr ⟨(f.bindOk, f.errMsg), List.mem_append_right _ (by simp), ?_⟩
          rw [hg1] at hgf; exact hgf
        · exact Or.inl ⟨g, hg1, hgf⟩
      · rcases h with ⟨p, hp, hpf⟩
        exact Or.inr ⟨p, List.mem_append_left _ hp, hpf⟩
    | forwardDynamic =>
      refine ih lis (tasks ++ [(f.bindOk, f.errMsg)]) ?_
      rcases h with ⟨g, hg, hgf⟩ | h
      · rcases List.mem_cons.mp hg with hg1 | hg1
        · refine Or.inr ⟨(f.bindOk, f.errMsg), List.mem_append_right _ (by simp), ?_⟩
          rw [hg1] at hgf; exact hgf
        · exact Or.inl ⟨g, hg1, hgf⟩
      · rcases h with ⟨p, hp, hpf⟩
        exact Or.inr ⟨p, List.mem_append_left _ hp, hpf⟩

theorem setupForwards_allLocal_fail (fs : List ForwardSetup) :
    ∀ (lis : Nat) (tasks : List (Bool × String)),
      (∀ f ∈ fs, f.ftype = .forwardLocal) → (∃ f ∈ fs, f.bindOk = false) →
      (setupForwards lis tasks fs).status = .statusError ∧
      (setupForwards lis tasks fs).retErr ≠ none := by
  induction fs with
  | nil =>
    intro lis tasks _ h
    simp at h
  | cons f rest ih =>
    intro lis tasks hloc h
    have hfl : f.ftype = .forwardLocal := hloc f (List.mem_cons_self _ _)
    unfold setupForwards
    rw [hfl]
    by_cases hfb : f.bindOk = true
    · rw [if_pos hfb]
      refine ih (lis + 1) tasks (fun g hg => hloc g (List.mem_cons_of_mem _ hg)) ?_
      rcases h with ⟨g, hg, hgf⟩
      rcases List.mem_cons.mp hg with hg1 | hg1
      · rw [hg1] at hgf; rw [hgf] at hfb; simp at hfb
      · exact ⟨g, hg1, hgf⟩
    · rw [if_neg hfb]
      exact ⟨rfl, by simp⟩

/-- Counterexample to C3 as stated: a tunnel whose first forward is a
    local forward that binds fine and whose second forward is a dynamic
    (SOCKS) forward whose listener bind fails.  `start` does not
    transition to Error and does not return the failure: the dynamic
    setup runs in a spawned goroutine, so `start` returns nil with the
    status it just set to Connected. -/
theorem c3_counterexample :
    (startModel true ""
      [⟨.forwardLocal, true, ""⟩, ⟨.forwardDynamic, false, "listen failed"⟩]).retErr = none ∧
    (startModel true ""
      [⟨.forwardLocal, true, ""⟩, ⟨.forwardDynamic, false, "listen failed"⟩]).status =
      .statusConnected := by
  constructor <;> rfl

/-- C3 amended: transport-acquisition failure makes `start` transition to
    Error and return that failure (part 1).  When the transport is up:
    if every forward binds, `start` returns nil with status Connected and
    the spawned setup tasks leave it Connected (part 2); if any forward
    fails to bind, the tunnel ends in Error once the spawned remote and
    dynamic setup tasks have completed (part 3) — but `start` itself only
    transitions to Error and returns the specific failure synchronously
    for local-forward bind failures, e.g. whenever all forwards are local
    (part 4); for remote/dynamic forwards `start` returns nil and sets
    Connected, the spawned task recording Error afterwards. -/
theorem c3_start_forward_failure :
    (∀ (dialErr : String) (fwds : List ForwardSetup),
      startModel false dialErr fwds = ⟨.statusError, dialErr, some dialErr, 0, []⟩) ∧
    (∀ fwds : List ForwardSetup, (∀ f ∈ fwds, f.bindOk = true) →
      (startModel true "" fwds).status = .statusConnected ∧
      (startModel true "" fwds).retErr = none ∧
      (applyAsync (startModel true "" fwds).status (startModel true "" fwds).errorMsg
        (startModel true "" fwds).asyncTasks).1 = .statusConnected) ∧
    (∀ fwds : List ForwardSetup, (∃ f ∈ fwds, f.bindOk = false) →
      (applyAsync (startModel true "" fwds).status (startModel true "" fwds).errorMsg
        (startModel true "" fwds).asyncTasks).1 = .statusError) ∧
    (∀ fwds : List ForwardSetup, (∀ f ∈ fwds, f.ftype = .forwardLocal) →
      (∃ f ∈ fwds, f.bindOk = false) →
      (startModel true "" fwds).status = .statusError ∧
      (startModel true "" fwds).retErr ≠ none) := by
  refine ⟨fun dialErr fwds => rfl, ?_, ?_, ?_⟩
  · intro fwds hok
    have h := setupForwards_allOk fwds 0 [] hok (by intro p hp; simp at hp)
    have happ := applyAsync_of_allOk (setupForwards 0 [] fwds).asyncTasks
      (setupForwards 0 [] fwds).status (setupForwards 0 [] fwds).errorMsg h.2.2
    refine ⟨h.1, h.2.1, ?_⟩
    show (applyAsync (setupForwards 0 [] fwds).status (setupForwards 0 [] fwds).errorMsg
      (setupForwards 0 [] fwds).asyncTasks).1 = .statusConnected
    rw [happ]
    exact h.1
  · intro fwds hfail
    exact setupForwards_anyFail fwds 0 [] (Or.inl hfail)
  · intro fwds hloc hfail
    exact setupForwards_allLocal_fail fwds 0 [] hloc hfail

/-- Witness for C3 amended: all-ok config ends Connected; a config whose
    second (dynamic) forward fails to bind ends in Error after the
    spawned tasks run; an all-local config with a failing bind makes
    start itself return the error with status Error. -/
theorem c3_witness :
    ((startModel true "" [⟨.forwardLocal, true, ""⟩]).status = .statusConnected ∧
      (startModel true "" [⟨.forwardLocal, true, ""⟩]).retErr = none) ∧
    (applyAsync
      (startModel true "" [⟨.forwardLocal, true, ""⟩, ⟨.forwardDynamic, false, "listen failed"⟩]).status
      (startModel true "" [⟨.forwardLocal, true, ""⟩, ⟨.forwardDynamic, false, "listen failed"⟩]).errorMsg
      (startModel true "" [⟨.forwardLocal, true, ""⟩, ⟨.forwardDynamic, false, "listen failed"⟩]).asyncTasks).1 =
      .statusError ∧
    (startModel true "" [⟨.forwardLocal, true, ""⟩, ⟨.forwardLocal, false, "bind failed"⟩]).status =
      .statusError := by
  refine ⟨?_, ?_, ?_⟩
  · have h := c3_start_forward_failure.2.1 [⟨.forwardLocal, true, ""⟩] (by decide)
    exact ⟨h.1, h.2.1⟩
  · exact c3_start_forward_failure.2.2.1
      [⟨.forwardLocal, true, ""⟩, ⟨.forwardDynamic, false, "listen failed"⟩]
      ⟨⟨.forwardDynamic, false, "listen failed"⟩, by decide, rfl⟩
  · exact (c3_start_forward_failure.2.2.2
      [⟨.forwardLocal, true, ""⟩, ⟨.forwardLocal, false, "bind failed"⟩]
      (by decide) ⟨⟨.forwardLocal, false, "bind failed"⟩, by decide, rfl⟩).1

/-- Counterexample to C2 as stated: a single failed dial inside
    `handleDirectForward` on a Connected tunnel does flip the tunnel
    status away from Connected — the handler sets `rt.Status = StatusError`
    (`tunnel.go` 192-197). -/
theorem c2_counterexample :
    (handleDirectForward .statusConnected "" true false "connection refused"
      "10.0.0.1:80").status = .statusError ∧
    (handleDirectForward .statusConnected "" true false "connection refused"
      "10.0.0.1:80").status ≠ .statusConnected := by
  constructor <;> decide

/-- C2 amended: a single failed dial abandons only that one connection
    (the handler writes nothing further on the direct-forward path, and
    on the SOCKS path replies the general-failure code, then closes), but
    it does NOT leave the status untouched: a failed dial while the
    tunnel is Connected sets the status to Error with a dial-failure
    message, in both `handleDirectForward` (part 1) and `handleSOCKS`
    (part 3); only when the tunnel is not currently Connected is the
    status left unchanged (parts 2 and 4). -/
theorem c2_dial_failure_sets_error :
    (∀ em dialErr addr, handleDirectForward .statusConnected em true false dialErr addr =
      ⟨[.dial addr, .close], .statusError, "Failed to dial " ++ addr ++ ": " ++ dialErr⟩) ∧
    (∀ st em dialErr addr, st ≠ .statusConnected →
      (handleDirectForward st em true false dialErr addr).status = st ∧
      (handleDirectForward st em true false dialErr addr).errorMsg = em) ∧
    (∀ em dialErr g req t, socksGreetingOK g = true → parseSocksRequest req = .target t →
      handleSOCKS .statusConnected em true false dialErr g req =
        ⟨[.write [5, 0], .dial t, .write [5, 1, 0, 1, 0, 0, 0, 0, 0, 0], .close],
          .statusError, "SOCKS dial failed: " ++ dialErr⟩) ∧
    (∀ st em dialErr g req t, st ≠ .statusConnected → socksGreetingOK g = true →
      parseSocksRequest req = .target t →
      (handleSOCKS st em true false dialErr g req).status = st ∧
      (handleSOCKS st em true false dialErr g req).errorMsg = em) := by
  refine ⟨?_, ?_, ?_, ?_⟩
  · intro em dialErr addr
    rfl
  · intro st em dialErr addr h
    unfold handleDirectForward
    rw [if_pos rfl, if_neg (by simp), if_neg h]
    exact ⟨rfl, rfl⟩
  · intro em dialErr g req t hg hp
    unfold handleSOCKS
    rw [if_pos hg, hp]
    rfl
  · intro st em dialErr g req t h hg hp
    unfold handleSOCKS
    rw [if_pos hg, hp]
    simp [h]

/-- Witness for C2 amended: concrete failed dials on a Connected and on a
    Stopped tunnel, for both handler kinds. -/
theorem c2_witness :
    handleDirectForward .statusConnected "" true false "refused" "h:80" =
      ⟨[.dial "h:80", .close], .statusError, "Failed to dial h:80: refused"⟩ ∧
    (handleDirectForward .statusStopped "old" true false "refused" "h:80").status =
      .statusStopped ∧
    handleSOCKS .statusConnected "" true false "refused" [5, 1, 0]
        [5, 1, 0, 1, 127, 0, 0, 1, 0, 80] =
      ⟨[.write [5, 0], .dial "127.0.0.1:80", .write [5, 1, 0, 1, 0, 0, 0, 0, 0, 0], .close],
        .statusError, "SOCKS dial failed: refused"⟩ ∧
    (handleSOCKS .statusStopped "old" true false "refused" [5, 1, 0]
        [5, 1, 0, 1, 127, 0, 0, 1, 0, 80]).status = .statusStopped := by
  refine ⟨?_, ?_, ?_, ?_⟩
  · have h := c2_dial_failure_sets_error.1 "" "refused" "h:80"
    simpa using h
  · exact (c2_dial_failure_sets_error.2.1 .statusStopped "old" "refused" "h:80" (by decide)).1
  · have h := c2_dial_failure_sets_error.2.2.1 "" "refused" [5, 1, 0]
      [5, 1, 0, 1, 127, 0, 0, 1, 0, 80] "127.0.0.1:80" (by decide) (by decide)
    simpa using h
  · exact (c2_dial_failure_sets_error.2.2.2 .statusStopped "old" "refused" [5, 1, 0]
      [5, 1, 0, 1, 127, 0, 0, 1, 0, 80] "127.0.0.1:80" (by decide) (by decide) (by decide)).1

/-- C5: SOCKS5 byte-exactness.  (1) Whatever methods the greeting offers,
    any greeting of at least 3 bytes starting with version byte 5 is
    answered first with exactly 05 00; (2) the CONNECT request
    05 01 00 01 7F 00 00 01 00 50 produces a dial to 127.0.0.1:80
    followed by the success reply; (3) any well-formed CONNECT request
    with address type byte 04 is answered with exactly
    05 08 00 01 00 00 00 00 00 00 and the connection closes with no dial. -/
theorem c5_socks_byte_exact :
    (∀ (st : TunnelStatus) (em dialErr : String) (cp dok : Bool) (g req : List Nat),
      socksGreetingOK g = true →
      (handleSOCKS st em cp dok dialErr g req).events.head? = some (.write [5, 0])) ∧
    (handleSOCKS .statusConnected "" true true "" [5, 1, 0]
        [5, 1, 0, 1, 127, 0, 0, 1, 0, 80]).events =
      [.write [5, 0], .dial "127.0.0.1:80", .write [5, 0, 0, 1, 0, 0, 0, 0, 0, 0], .close] ∧
    (∀ req : List Nat, 10 ≤ req.length → byte req 0 = 5 → byte req 1 = 1 → byte req 3 = 4 →
      ∀ (st : TunnelStatus) (em dialErr : String) (cp dok : Bool),
        (handleSOCKS st em cp dok dialErr [5, 1, 0] req).events =
          [.write [5, 0], .write [5, 8, 0, 1, 0, 0, 0, 0, 0, 0], .close]) := by
  refine ⟨?_, by decide, ?_⟩
  · intro st em dialErr cp dok g req hg
    unfold handleSOCKS
    rw [if_pos hg]
    cases hp : parseSocksRequest req with
    | abort => rfl
    | unsupported => rfl
    | target t =>
      by_cases hst : st = .statusConnected <;> cases cp <;> cases dok <;> simp [hst]
  · intro req hn h0 h1 h4 st em dialErr cp dok
    have hp : parseSocksRequest req = .unsupported := by
      unfold parseSocksRequest
      have h10 : ¬ req.length < 10 := by omega
      simp [h10, h0, h1, h4]
    unfold handleSOCKS
    rw [if_pos (by decide : socksGreetingOK [5, 1, 0] = true), hp]
    rfl

/-- Witness for C5: a greeting offering method 2 is still answered 05 00,
    and a concrete address-type-04 request gets the unsupported reply. -/
theorem c5_witness :
    (handleSOCKS .statusStopped "" false false "" [5, 2, 0, 1]
        [5, 1, 0, 1, 127, 0, 0, 1, 0, 80]).events.head? = some (.write [5, 0]) ∧
    (handleSOCKS .statusConnected "" true true "" [5, 1, 0]
        [5, 1, 0, 4, 1, 2, 3, 4, 0, 80]).events =
      [.write [5, 0], .write [5, 8, 0, 1, 0, 0, 0, 0, 0, 0], .close] := by
  constructor
  · exact c5_socks_byte_exact.1 .statusStopped "" "" false false [5, 2, 0, 1]
      [5, 1, 0, 1, 127, 0, 0, 1, 0, 80] (by decide)
  · exact c5_socks_byte_exact.2.2 [5, 1, 0, 4, 1, 2, 3, 4, 0, 80] (by decide) (by decide)
      (by decide) (by decide) .statusConnected "" "" true true

/-- C6: domain-name bounds check.  Any request whose address-type byte is
    3 (domain) and whose length byte promises more bytes than the read
    delivered is rejected: the parser aborts before the hostname and port
    slices are taken (the guard n >= 5+hostLen+2 fails first), no dial
    occurs and the handler just closes after the greeting reply. -/
theorem c6_socks_domain_bounds (buf : List Nat)
    (h3 : byte buf 3 = 3) (hlen : buf.length < 5 + byte buf 4 + 2) :
    parseSocksRequest buf = .abort ∧
    ∀ (st : TunnelStatus) (em dialErr : String) (cp dok : Bool) (g : List Nat),
      (handleSOCKS st em cp dok dialErr g buf).events =
        (if socksGreetingOK g then [.write [5, 0], .close] else [.close]) := by
  have hp : parseSocksRequest buf = .abort := by
    unfold parseSocksRequest
    by_cases h10 : buf.length < 10
    · simp [h10]
    · by_cases hb : byte buf 0 ≠ 5 ∨ byte buf 1 ≠ 1
      · simp [h10, hb]
      · have h7 : ¬ buf.length < 7 := by omega
        simp [h10, hb, h3, h7, hlen]
  refine ⟨hp, ?_⟩
  intro st em dialErr cp dok g
  unfold handleSOCKS
  by_cases hg : socksGreetingOK g = true
  · rw [if_pos hg, hp, if_pos hg]
    rfl
  · rw [if_neg hg, if_neg hg]

/-- Witness for C6: a 10-byte domain request whose length byte is 200. -/
theorem c6_witness :
    parseSocksRequest [5, 1, 0, 3, 200, 0, 0, 0, 0, 0] = .abort ∧
    (handleSOCKS .statusConnected "" true true "" [5, 1, 0]
      [5, 1, 0, 3, 200, 0, 0, 0, 0, 0]).events = [.write [5, 0], .close] := by
  have h := c6_socks_domain_bounds [5, 1, 0, 3, 200, 0, 0, 0, 0, 0] (by decide) (by decide)
  refine ⟨h.1, ?_⟩
  have h2 := h.2 .statusConnected "" "" true true [5, 1, 0]
  simpa using h2

/-- C10: nil transport handle at dial time.  For any request that decodes
    to a dial target, when `rt.Client` is nil the handler does not abort
    silently: it writes the general-failure reply 05 01 00 01 followed by
    six zero bytes and closes, without any dial, leaving status and error
    message untouched. -/
theorem c10_socks_nil_client (st : TunnelStatus) (em dialErr : String) (dok : Bool)
    (g req : List Nat) (t : String)
    (hg : socksGreetingOK g = true) (hp : parseSocksRequest req = .target t) :
    handleSOCKS st em false dok dialErr g req =
      ⟨[.write [5, 0], .write [5, 1, 0, 1, 0, 0, 0, 0, 0, 0], .close], st, em⟩ := by
  unfold handleSOCKS
  rw [if_pos hg, hp]
  rfl

/-- Witness for C10: concrete IPv4 CONNECT with a nil client. -/
theorem c10_witness :
    handleSOCKS .statusConnected "" false true "" [5, 1, 0]
        [5, 1, 0, 1, 127, 0, 0, 1, 0, 80] =
      ⟨[.write [5, 0], .write [5, 1, 0, 1, 0, 0, 0, 0, 0, 0], .close], .statusConnected, ""⟩ :=
  c10_socks_nil_client .statusConnected "" "" true [5, 1, 0]
    [5, 1, 0, 1, 127, 0, 0, 1, 0, 80] "127.0.0.1:80" (by decide) (by decide)

/-- C7: HTTP CONNECT success criterion.  Once the CONNECT request has been
    written and a status line read, the proxy dial succeeds if and only if
    the status line contains the substring " 200 "; any other status line
    closes the proxy connection and returns an error carrying the trimmed
    status line; on success the header lines are drained up to and
    including the first blank line before the connection is returned. -/
theorem c7_proxy_connect_status (s : String) (headers : List String) :
    ((dialViaHTTPProxyModel true (some s) headers).ok = true ↔
      strContains s " 200 " = true) ∧
    (strContains s " 200 " = false →
      dialViaHTTPProxyModel true (some s) headers =
        ⟨false, true, some (.connectRejected (strTrim s)), []⟩) ∧
    (strContains s " 200 " = true →
      dialViaHTTPProxyModel true (some s) headers =
        ⟨true, false, none, dropHeaders headers⟩) := by
  cases hc : strContains s " 200 " <;>
    simp [dialViaHTTPProxyModel, hc]

/-- Witness for C7: a 200 status line succeeds and drains headers; a 403
    line fails, closing the connection. -/
theorem c7_witness :
    dialViaHTTPProxyModel true (some "HTTP/1.1 200 Connection established")
        ["X-Info: a", "\r\n", "tail"] = ⟨true, false, none, ["tail"]⟩ ∧
    dialViaHTTPProxyModel true (some "HTTP/1.1 403 Forbidden") [] =
      ⟨false, true, some (.connectRejected "HTTP/1.1 403 Forbidden"), []⟩ := by
  constructor
  · have h := (c7_proxy_connect_status "HTTP/1.1 200 Connection established"
      ["X-Info: a", "\r\n", "tail"]).2.2 (by decide)
    rw [h]
    decide
  · have h := (c7_proxy_connect_status "HTTP/1.1 403 Forbidden" []).2.1 (by decide)
    rw [h]
    decide

/-- C8: health re-check.  On a Connected tunnel with a transport handle
    whose last heartbeat is more than 120 seconds old, `isHealthy` runs
    the liveness probe: a failed probe demotes the status to Disconnected
    with the message "Connection lost" and reports unhealthy, a
    successful probe refreshes the heartbeat to now and reports healthy —
    so a tunnel with a dead transport never stays Connected past the
    staleness threshold. -/
theorem c8_health_recheck (st : HealthSt) (now : Nat) (probeOk : Bool)
    (h1 : st.status = .statusConnected) (h2 : st.clientPresent = true)
    (h3 : 120 < now - st.lastHeartbeat) :
    (probeOk = false →
      isHealthy st now probeOk =
        (false, { st with status := .statusDisconnected, errorMsg := "Connection lost" }) ∧
      (isHealthy st now probeOk).2.status ≠ .statusConnected) ∧
    (probeOk = true →
      isHealthy st now probeOk = (true, { st with lastHeartbeat := now })) := by
  constructor
  · intro hp
    have he : isHealthy st now probeOk =
        (false, { st with status := .statusDisconnected, errorMsg := "Connection lost" }) := by
      unfold isHealthy
      rw [if_neg (by simp [h1, h2]), if_pos h3, if_pos hp]
    refine ⟨he, ?_⟩
    rw [he]
    simp
  · intro hp
    unfold isHealthy
    rw [if_neg (by simp [h1, h2]), if_pos h3, if_neg (by simp [hp])]

/-- Witness for C8: a Connected tunnel with heartbeat 121 seconds stale;
    a failed probe demotes it, a successful one refreshes it. -/
theorem c8_witness :
    isHealthy ⟨.statusConnected, "", true, 0⟩ 121 false =
      (false, ⟨.statusDisconnected, "Connection lost", true, 0⟩) ∧
    isHealthy ⟨.statusConnected, "", true, 0⟩ 121 true =
      (true, ⟨.statusConnected, "", true, 121⟩) := by
  constructor
  · exact ((c8_health_recheck ⟨.statusConnected, "", true, 0⟩ 121 false rfl rfl
      (by decide)).1 rfl).1
  · exact (c8_health_recheck ⟨.statusConnected, "", true, 0⟩ 121 true rfl rfl
      (by decide)).2 rfl

/-- C9: keyboard-interactive answering.  A prompt whose lowercased trimmed
    text contains "password" is answered with the configured password
    (part 1); a prompt not mentioning "password" but mentioning
    "verification", "code", "token" or "authenticator" is answered with
    the 2FA code (part 2); every answer produced by a successful
    challenge is the per-prompt answer in order (part 3); and if any
    prompt matches neither set, the whole challenge fails with an
    unexpected-prompt error and returns no answers (part 4). -/
theorem c9_kbd_challenge :
    (∀ password code q, strContains (strToLower (strTrim q)) "password" = true →
      answerPrompt password code q = some password) ∧
    (∀ password code q, strContains (strToLower (strTrim q)) "password" = false →
      (strContains (strToLower (strTrim q)) "verification" ||
        strContains (strToLower (strTrim q)) "code" ||
        strContains (strToLower (strTrim q)) "token" ||
        strContains (strToLower (strTrim q)) "authenticator") = true →
      answerPrompt password code q = some code) ∧
    (∀ password code qs answers, kbdChallenge password code qs = .ok answers →
      answers.length = qs.length ∧
      ∀ i (hq : i < qs.length) (ha : i < answers.length),
        answerPrompt password code (qs.get ⟨i, hq⟩) = some (answers.get ⟨i, ha⟩)) ∧
    (∀ password code qs q, q ∈ qs → answerPrompt password code q = none →
      ∃ e, kbdChallenge password code qs = .error e) := by
  refine ⟨?_, ?_, ?_, ?_⟩
  · intro password code q h
    unfold answerPrompt
    rw [if_pos h]
  · intro password code q h1 h2
    unfold answerPrompt
    rw [if_neg (by simp [h1]), if_pos h2]
  · intro password code qs
    induction qs with
    | nil =>
      intro answers h
      unfold kbdChallenge at h
      cases h
      exact ⟨rfl, fun i hq ha => absurd hq (by simp)⟩
    | cons q rest ih =>
      intro answers h
      unfold kbdChallenge at h
      cases ha : answerPrompt password code q with
      | none => rw [ha] at h; cases h
      | some a =>
        rw [ha] at h
        cases hr : kbdChallenge password code rest with
        | error e => rw [hr] at h; cases h
        | ok tailAns =>
          rw [hr] at h
          cases h
          have htail := ih tailAns hr
          refine ⟨by simp [htail.1], ?_⟩
          intro i hq hlen
          cases i with
          | zero => simpa using ha
          | succ j =>
            have hq2 : j < rest.length := by
              simpa using hq
            have hl2 : j < tailAns.length := by
              simpa using hlen
            simpa using htail.2 j hq2 hl2
  · intro password code qs
    induction qs with
    | nil =>
      intro q hq _
      simp at hq
    | cons p rest ih =>
      intro q hq hnone
      cases hp : answerPrompt password code p with
      | none =>
        refine ⟨"unexpected prompt: " ++ p, ?_⟩
        unfold kbdChallenge
        rw [hp]
      | some a =>
        have hq2 : q ∈ rest := by
          rcases List.mem_cons.mp hq with h1 | h1
          · rw [h1] at hnone; rw [hnone] at hp; cases hp
          · exact h1
        rcases ih q hq2 hnone with ⟨e, he⟩
        refine ⟨e, ?_⟩
        unfold kbdChallenge
        rw [hp, he]

/-- Witness for C9: the standard password and verification-code prompts
    get the right answers, the full challenge answers them in order, and
    an unrecognized prompt fails the challenge. -/
theorem c9_witness :
    answerPrompt "pw" "123456" "Password: " = some "pw" ∧
    answerPrompt "pw" "123456" "Verification code: " = some "123456" ∧
    (kbdChallenge "pw" "123456" ["Password: ", "Verification code: "] =
        .ok ["pw", "123456"] →
      answerPrompt "pw" "123456" "Password: " = some "pw") ∧
    (∃ e, kbdChallenge "pw" "123456" ["Password: ", "Smart card PIN: "] = .error e) := by
  refine ⟨?_, ?_, ?_, ?_⟩
  · exact c9_kbd_challenge.1 "pw" "123456" "Password: " (by decide)
  · exact c9_kbd_challenge.2.1 "pw" "123456" "Verification code: " (by decide) (by decide)
  · intro h
    have := (c9_kbd_challenge.2.2.1 "pw" "123456" ["Password: ", "Verification code: "]
      ["pw", "123456"] h).2 0 (by decide) (by decide)
    simpa using this
  · exact c9_kbd_challenge.2.2.2 "pw" "123456" ["Password: ", "Smart card PIN: "]
      "Smart card PIN: " (by decide) (by decide)
